import Mathlib

/-!
Verification of the workflow execution engine of the speaker-workflow-system
repository.  The definitions below are a shallow embedding of
`src/workflow.ts` (the `WorkflowManager` class) and `src/workflowHandlers.ts`
(the built-in handler registry).

Modelling conventions:
* JS strings are Lean `String`s; all algorithmic string operations
  (lowercasing, trimming, splitting, substring search) are implemented on the
  underlying character lists so that every definition reduces inside the
  kernel.  JS `toLowerCase`/`trim`/`\s`/`\w` are Unicode-aware; the Lean
  counterparts are ASCII-faithful, which covers every string produced by the
  workflow format.
* A JS `Record<string, T>` (a JSON object) is an association list in key
  insertion order with unique keys; property access is `List.lookup`.
* A JS `Map` is an association list in insertion order; `Map.set` overwrites
  in place, keeping the position of the key, else appends.
* Mutation of `this` is explicit state passing: each method takes and returns
  a `WorkflowManager` value.  `this.activeDef = def` stores the definition
  value reached at activation time, exactly as the TS field stores the object
  reference obtained from the registry at that moment.
* `emit(action)` invokes listeners; the engine state itself is never changed by
  `emit` itself.  Methods that emit return the pair of the produced
  `HandleResult` and the manager state as it is at the moment `emit` runs.
* `metadata` values (`unknown` in TS) are modelled as the strings the engine
  would print for them (`String(val)`), the only way the engine reads them.
* `maxTurns` (a JS `number`) is modelled as `Nat`; the JS truthiness test
  `state.maxTurns && ...` becomes the `n != 0` test on the declared value.
-/

namespace SpeakerWorkflow

-- ── Character/string helpers (JS built-ins used by workflow.ts) ─────

/-- JS `\w` character class: `[A-Za-z0-9_]` (`Char.isAlphanum` is ASCII). -/
def isWordChar (c : Char) : Bool := c.isAlphanum || c == '_'

/-- `String.prototype.toLowerCase` (ASCII range). -/
def toLowerStr (s : String) : String := String.mk (s.data.map Char.toLower)

/-- Whitespace trimming on both ends (JS `String.prototype.trim`). -/
def trimChars (l : List Char) : List Char :=
  ((l.dropWhile Char.isWhitespace).reverse.dropWhile Char.isWhitespace).reverse

/-- `text.toLowerCase().trim()` — line 166 of workflow.ts. -/
def lowerTrim (text : String) : String := String.mk (trimChars (toLowerStr text).data)

/-- Split a character list at every character satisfying `p`
(JS `split` with a single-character separator when `p` tests that character). -/
def splitPred (p : Char → Bool) (l : List Char) : List (List Char) :=
  l.foldr
    (fun c acc =>
      match acc with
      | [] => [[c]]
      | h :: t => if p c then [] :: h :: t else (c :: h) :: t)
    [[]]

/-- Does `needle` occur inside `l` as a contiguous substring? -/
def occursIn (needle : List Char) : List Char → Bool
  | [] => needle.isEmpty
  | c :: rest => needle.isPrefixOf (c :: rest) || occursIn needle rest

/-- JS `String.prototype.includes`. -/
def strIncludes (hay needle : String) : Bool := occursIn needle.data hay.data

/-- JS `String.prototype.startsWith`. -/
def startsWith (s pre : String) : Bool := pre.data.isPrefixOf s.data

/-- JS `String.prototype.slice(n)` (ASCII: character drop). -/
def sliceFrom (s : String) (n : Nat) : String := String.mk (s.data.drop n)

/-- JS `String.prototype.indexOf(':')` as an `Option` over characters. -/
def idxOfColon : List Char → Option Nat
  | [] => none
  | c :: rest => if c == ':' then some 0 else (idxOfColon rest).map (· + 1)

-- ── Data model (workflowHandlers.ts lines 6-13, workflow.ts lines 13-48) ──

/-- `WorkflowContext` — workflowHandlers.ts lines 6-11. -/
structure WorkflowContext where
  buffer : String
  metadata : List (String × String)
  turnCount : Nat
  stateTurnCount : Nat
deriving DecidableEq

/-- `WorkflowHandler` — `(text, ctx) => void`, mutating `ctx` in place. -/
def WorkflowHandler : Type := String → WorkflowContext → WorkflowContext

/-- Built-in `accumulate` handler — workflowHandlers.ts lines 20-22. -/
def accumulate : WorkflowHandler := fun text ctx =>
  { ctx with buffer := ctx.buffer ++ (if ctx.buffer == "" then "" else " ") ++ text }

/-- Built-in `bullets` handler — workflowHandlers.ts lines 28-30. -/
def bullets : WorkflowHandler := fun text ctx =>
  { ctx with buffer := ctx.buffer ++ (if ctx.buffer == "" then "" else "\n") ++ "- " ++ text }

/-- `WORKFLOW_HANDLERS` — workflowHandlers.ts lines 15-31, in entry order. -/
def WORKFLOW_HANDLERS : List (String × WorkflowHandler) :=
  [("accumulate", accumulate), ("bullets", bullets)]

/-- `WorkflowStateDef` — workflow.ts lines 13-20. -/
structure WorkflowStateDef where
  id : String
  onEnter : String
  transitions : List (String × String)
  handler : Option String := none
  maxTurns : Option Nat := none
  maxTurnsTarget : Option String := none
deriving DecidableEq

/-- `WorkflowDef` — workflow.ts lines 22-34 (the optional `ui` block has no
engine semantics and is omitted). -/
structure WorkflowDef where
  id : String
  triggerIntent : String
  states : List (String × WorkflowStateDef)
  initialState : String
  exitPhrases : List String
  exitMessage : String
deriving DecidableEq

/-- `WorkflowAction` — workflow.ts lines 36-40. -/
inductive WorkflowAction where
  | enterState (stateId : String) (message : String) (workflowId : String)
  | inputCaptured (stateId : String) (workflowId : String)
  | exitWorkflow (message : String) (workflowId : String) (context : WorkflowContext)
  | message (message : String) (workflowId : String)
deriving DecidableEq

/-- `HandleResult` — workflow.ts lines 42-45. -/
structure HandleResult where
  consumed : Bool
  action : Option WorkflowAction := none
deriving DecidableEq

/-- The mutable fields of the manager — workflow.ts lines 52-60.  Listener sets
(lines 55, 124-140) carry no engine-state semantics and are not part of the
state; emission is modelled by returning the emitted action. -/
structure WorkflowManager where
  registry : List (String × WorkflowDef)
  handlers : List (String × WorkflowHandler)
  activeDef : Option WorkflowDef
  activeStateId : Option String
  context : WorkflowContext

/-- The zeroed context created at lines 60, 175 and 306. -/
def freshContext : WorkflowContext :=
  { buffer := "", metadata := [], turnCount := 0, stateTurnCount := 0 }

/-- `new WorkflowManager()` — lines 52-67 (built-in handlers registered). -/
def newManager : WorkflowManager :=
  { registry := [], handlers := WORKFLOW_HANDLERS,
    activeDef := none, activeStateId := none, context := freshContext }

-- ── Registry (workflow.ts lines 69-96) ──────────────────────────────

/-- JS `Map.prototype.set`: overwrite in place if the key exists (keeping its
position), otherwise append. -/
def mapSet (k : String) (v : WorkflowDef) (m : List (String × WorkflowDef)) :
    List (String × WorkflowDef) :=
  if m.any (fun p => p.1 == k) then m.map (fun p => if p.1 == k then (k, v) else p)
  else m ++ [(k, v)]

/-- `register` — workflow.ts lines 71-73. -/
def register (d : WorkflowDef) (m : WorkflowManager) : WorkflowManager :=
  { m with registry := mapSet d.id d m.registry }

/-- The non-blank lines of a JSONL batch —
`jsonl.split('\n').filter(l => l.trim())`, workflow.ts line 81. -/
def nonBlankLines (jsonl : String) : List String :=
  ((splitPred (fun c => c == '\n') jsonl.data).map String.mk).filter
    (fun l => !(trimChars l.data).isEmpty)

/-- The registration loop of `loadFromJSONL` (workflow.ts lines 82-85).
`parse` stands for `JSON.parse` followed by the `as WorkflowDef` cast — a JS
built-in, not code of this repository — returning `none` when it throws.  The
returned `Bool` is `false` when some line threw; since the exception
propagates out of the method, the already performed registrations on `this`
survive, so the manager reached at the throw is returned alongside. -/
def loadLines (parse : String → Option WorkflowDef) :
    List String → WorkflowManager → Bool × WorkflowManager
  | [], m => (true, m)
  | l :: rest, m =>
    match parse l with
    | none => (false, m)
    | some d => loadLines parse rest (register d m)

/-- `loadFromJSONL` — workflow.ts lines 80-86. -/
def loadFromJSONL (parse : String → Option WorkflowDef) (jsonl : String)
    (m : WorkflowManager) : Bool × WorkflowManager :=
  loadLines parse (nonBlankLines jsonl) m

/-- `findByTrigger` — workflow.ts lines 251-256 (first match in registry
insertion order, as `Map.values()` iterates). -/
def findByTrigger (m : WorkflowManager) (intent : String) : Option WorkflowDef :=
  ((m.registry.map (fun p => p.2)).find? (fun d => d.triggerIntent == intent))

-- ── Query (workflow.ts lines 98-120) ────────────────────────────────

/-- `isActive` — workflow.ts lines 98-100. -/
def isActive (m : WorkflowManager) : Bool := m.activeDef.isSome

/-- `getActiveStateId` — workflow.ts lines 106-108. -/
def getActiveStateId (m : WorkflowManager) : Option String := m.activeStateId

/-- `getContext` — workflow.ts lines 110-112. -/
def getContext (m : WorkflowManager) : WorkflowContext := m.context

/-- `isCapturing` — workflow.ts lines 114-120.  `!this.activeStateId` is JS
truthiness: both `null` and the empty string fail it; likewise
`!!state.handler` requires a declared, non-empty handler name. -/
def isCapturing (m : WorkflowManager) : Bool :=
  match m.activeDef, m.activeStateId with
  | some d, some sid =>
    if sid == "" then false
    else
      match d.states.lookup sid with
      | none => false
      | some st =>
        (match st.handler with
         | some hname => !(hname == "")
         | none => false) && st.transitions.isEmpty
  | _, _ => false

-- ── Template resolution (workflow.ts lines 144-161) ─────────────────

/-- The replacer callback of `resolveTemplate` — workflow.ts lines 146-159.
It receives the captured variable path and produces the replacement text. -/
def resolveVar (ctx : WorkflowContext) (path : String) : String :=
  if path == "buffer" then ctx.buffer
  else if path == "turnCount" then toString ctx.turnCount
  else if path == "stateTurnCount" then toString ctx.stateTurnCount
  else if path == "wordCount" then
    let trimmed := trimChars ctx.buffer.data
    if trimmed.isEmpty then "0"
    else toString (((splitPred Char.isWhitespace trimmed).filter
      (fun s => !s.isEmpty)).length)
  else if startsWith path "metadata." then
    let key := sliceFrom path 9
    match ctx.metadata.lookup key with
    | some v => v
    | none => ""
  else ""

/-- Matcher for the tail `(\.\w+)*\x7d\x7d` of the template pattern, returning
the matched dotted segments and the text after the closing braces.  `fuel`
bounds the number of dot segments (any value at least the input length is
enough).  Greedy matching is exact here: backtracking inside
`\w+(?:\.\w+)*\x7d\x7d` can never produce a match that greedy scanning
misses, since every earlier stopping point faces a `.` or a word character
where `\x7d\x7d` is required. -/
def matchTail : Nat → List Char → Option (List Char × List Char)
  | _, '}' :: '}' :: rest => some ([], rest)
  | fuel + 1, '.' :: rest =>
    let w := rest.takeWhile isWordChar
    if w.isEmpty then none
    else
      match matchTail fuel (rest.dropWhile isWordChar) with
      | some (p, r) => some ('.' :: (w ++ p), r)
      | none => none
  | _, _ => none

/-- Matcher for the bracket body `\w+(?:\.\w+)*\x7d\x7d`, returning the
captured path and the remaining text. -/
def matchBody (fuel : Nat) (l : List Char) : Option (String × List Char) :=
  let w := l.takeWhile isWordChar
  if w.isEmpty then none
  else
    match matchTail fuel (l.dropWhile isWordChar) with
    | some (p, r) => some (String.mk (w ++ p), r)
    | none => none

/-- The global-replace scan of
`template.replace(/\x7b\x7b(\w+(?:\.\w+)*)\x7d\x7d/g, ...)`: find each
leftmost non-overlapping match, substitute via the replacer, copy every other
character.  `fuel` bounds the number of scan steps (the input length is
enough, as every step consumes at least one character). -/
def renderAux (ctx : WorkflowContext) : Nat → List Char → List Char
  | _, [] => []
  | 0, l => l
  | fuel + 1, '{' :: '{' :: rest =>
    (match matchBody rest.length rest with
     | some (path, r) => (resolveVar ctx path).data ++ renderAux ctx fuel r
     | none => '{' :: renderAux ctx fuel ('{' :: rest))
  | fuel + 1, c :: rest => c :: renderAux ctx fuel rest

/-- `resolveTemplate` — workflow.ts lines 144-161. -/
def resolveTemplate (template : String) (ctx : WorkflowContext) : String :=
  String.mk (renderAux ctx template.data.length template.data)

-- ── Core input handling (workflow.ts lines 163-310) ─────────────────

/-- `matchesExitPhrase` — workflow.ts lines 258-263. -/
def matchesExitPhrase (lower : String) (phrases : List String) : Bool :=
  phrases.any (fun phrase => strIncludes lower (toLowerStr phrase))

/-- `exitWorkflow` — workflow.ts lines 290-310.  `d` is `this.activeDef!`.
The message template (`messageOverride ?? def.exitMessage`) is resolved
against the current context, the action carries a snapshot of that context
(`{...this.context}`), and the active fields are cleared (lines 304-306)
before `emit` runs (line 308): the returned manager is exactly the state a
listener observes during emission. -/
def exitWorkflow (d : WorkflowDef) (m : WorkflowManager) (messageOverride : Option String) :
    HandleResult × WorkflowManager :=
  let template := messageOverride.getD d.exitMessage
  let message := resolveTemplate template m.context
  let contextSnapshot := m.context
  let action := WorkflowAction.exitWorkflow message d.id contextSnapshot
  ({ consumed := true, action := some action },
   { m with activeDef := none, activeStateId := none, context := freshContext })

/-- `enterState` — workflow.ts lines 265-288.  `d` is `this.activeDef!`.
An unresolvable state id falls back to `exitWorkflow()` with no override
(line 269).  `stateTurnCount` is reset only when `activeStateId !== stateId`
(lines 273-275); the entry message is resolved after that reset. -/
def enterState (d : WorkflowDef) (m : WorkflowManager) (stateId : String)
    (messageOverride : Option String) : HandleResult × WorkflowManager :=
  match d.states.lookup stateId with
  | none => exitWorkflow d m none
  | some st =>
    let ctx1 := if m.activeStateId = some stateId then m.context
                else { m.context with stateTurnCount := 0 }
    let template := messageOverride.getD st.onEnter
    let message := resolveTemplate template ctx1
    let action := WorkflowAction.enterState stateId message d.id
    ({ consumed := true, action := some action },
     { m with activeStateId := some stateId, context := ctx1 })

/-- Resolution of a transition Target string.  Lines 199-210 (the `maxTurns`
block) and lines 216-227 (the intent-transition block) of workflow.ts are the
same code run on different targets; this function is that shared logic:
`"exit"`/`"exit:<msg>"` exit (with the text after `exit:` as override),
otherwise the text before the first `:` names the state and the text after it
overrides `onEnter`. -/
def resolveTarget (d : WorkflowDef) (m : WorkflowManager) (target : String) :
    HandleResult × WorkflowManager :=
  if target == "exit" || startsWith target "exit:" then
    let customMsg := if startsWith target "exit:" then some (sliceFrom target 5) else none
    exitWorkflow d m customMsg
  else
    match idxOfColon target.data with
    | some i => enterState d m (String.mk (target.data.take i)) (some (sliceFrom target (i + 1)))
    | none => enterState d m target none

/-- The `maxTurns` guard of line 197:
`state.maxTurns && this.context.stateTurnCount > state.maxTurns`
(JS truthiness of the number, then strict comparison). -/
def maxTurnsHit (mt : Option Nat) (stateTurnCount : Nat) : Bool :=
  match mt with
  | some n => n != 0 && decide (n < stateTurnCount)
  | none => false

/-- The turn bookkeeping of lines 193-194: increment `turnCount` and
`stateTurnCount`. -/
def incTurns (m : WorkflowManager) : WorkflowManager :=
  { m with context := { m.context with
      turnCount := m.context.turnCount + 1,
      stateTurnCount := m.context.stateTurnCount + 1 } }

/-- `handleInput` — workflow.ts lines 165-247. -/
def handleInput (m : WorkflowManager) (text : String) (detectedIntent : String) :
    HandleResult × WorkflowManager :=
  let lower := lowerTrim text
  match m.activeDef with
  | none =>
    -- lines 169-177: no workflow active, check for trigger
    match findByTrigger m detectedIntent with
    | none => ({ consumed := false }, m)
    | some d =>
      let m1 := { m with activeDef := some d, context := freshContext }
      enterState d m1 d.initialState none
  | some d =>
    -- lines 182-185: exit phrases win from any state
    if matchesExitPhrase lower d.exitPhrases then exitWorkflow d m none
    else
      -- lines 187-191: unresolvable current state recovers by exiting
      match (match m.activeStateId with
             | none => none
             | some sid => d.states.lookup sid) with
      | none => exitWorkflow d m none
      | some st =>
        -- lines 193-194: turn bookkeeping
        let m1 := incTurns m
        -- lines 196-211: maxTurns redirect
        if maxTurnsHit st.maxTurns m1.context.stateTurnCount then
          resolveTarget d m1 (st.maxTurnsTarget.getD "exit")
        else
          -- lines 213-228: transition by intent, falling back to the wildcard
          match (match st.transitions.lookup detectedIntent with
                 | some t => some t
                 | none => st.transitions.lookup "*") with
          | some target => resolveTarget d m1 target
          | none =>
            -- lines 230-243: handler fallback (JS truthiness of the name)
            match st.handler with
            | some hname =>
              if hname == "" then ({ consumed := false }, m1)
              else
                match m1.handlers.lookup hname with
                | some handlerFn =>
                  let m2 := { m1 with context := handlerFn text m1.context }
                  ({ consumed := true,
                     action := some (WorkflowAction.inputCaptured st.id d.id) }, m2)
                | none => ({ consumed := false }, m1)
            | none => ({ consumed := false }, m1)

/-- `getActiveWorkflowId` — workflow.ts lines 102-104. -/
def getActiveWorkflowId (m : WorkflowManager) : Option String := m.activeDef.map (fun d => d.id)

def liveDefOld : WorkflowDef :=
  { id := "w", triggerIntent := "go",
    states := [("s0", { id := "s0", onEnter := "hi", transitions := [] })],
    initialState := "s0", exitPhrases := ["stop"], exitMessage := "old" }

def liveDefNew : WorkflowDef := { liveDefOld with exitMessage := "new" }

/-- Fold of `register` over the lines that parsed, in order. -/
def registerParsed (parse : String → Option WorkflowDef) :
    List String → WorkflowManager → WorkflowManager
  | [], m => m
  | l :: rest, m =>
    match parse l with
    | some d => registerParsed parse rest (register d m)
    | none => m

def cexDef : WorkflowDef :=
  { id := "alpha", triggerIntent := "go", states := [], initialState := "s",
    exitPhrases := [], exitMessage := "m" }

def cexParse : String → Option WorkflowDef := fun line =>
  if line == "valid-def-line" then some cexDef else none

/-- Drop a declared `maxTurns` cap from one state. -/
def eraseMaxTurns (st : WorkflowStateDef) : WorkflowStateDef := { st with maxTurns := none }

/-- Drop the `maxTurns` cap of the state keyed `sid` in a definition. -/
def eraseStateMax (sid : String) (d : WorkflowDef) : WorkflowDef :=
  { d with states := d.states.map (fun p => if p.1 == sid then (p.1, eraseMaxTurns p.2) else p) }

/-- Drop the `maxTurns` cap of the state keyed `sid` in the active definition. -/
def eraseMT (sid : String) (m : WorkflowManager) : WorkflowManager :=
  { m with activeDef := m.activeDef.map (eraseStateMax sid) }

/-- Is the head of `l` (if any) a non-word character? -/
def headNotWord : List Char → Bool
  | [] => true
  | c :: _ => !(isWordChar c)

/-- The characters `.` `seg₁` `.` `seg₂` … of the dotted tail of a path. -/
def dotted : List (List Char) → List Char
  | [] => []
  | w :: rest => '.' :: (w ++ dotted rest)

/-- The characters of a whole path `seg₀.seg₁.…`. -/
def pathChars : List (List Char) → List Char
  | [] => []
  | w :: rest => w ++ dotted rest

def exState : WorkflowStateDef :=
  { id := "rec", onEnter := "Mic hot.", transitions := [], handler := some "accumulate" }

def exDef : WorkflowDef :=
  { id := "tflow", triggerIntent := "t", states := [("rec", exState)],
    initialState := "rec", exitPhrases := ["stop transcribe"], exitMessage := "Saved." }

def exMgr : WorkflowManager :=
  { registry := [("tflow", exDef)], handlers := WORKFLOW_HANDLERS,
    activeDef := some exDef, activeStateId := some "rec",
    context := { buffer := "hello", metadata := [], turnCount := 3, stateTurnCount := 3 } }

def mtState : WorkflowStateDef :=
  { id := "ask", onEnter := "Welcome.", transitions := [("*", "ask:Try again.")],
    maxTurns := some 2 }

def mtDef : WorkflowDef :=
  { id := "flow", triggerIntent := "start", states := [("ask", mtState)],
    initialState := "ask", exitPhrases := ["cancel"], exitMessage := "Done." }

def mtMgr : WorkflowManager :=
  { registry := [("flow", mtDef)], handlers := WORKFLOW_HANDLERS,
    activeDef := some mtDef, activeStateId := some "ask",
    context := { buffer := "", metadata := [], turnCount := 2, stateTurnCount := 2 } }

def ztState : WorkflowStateDef :=
  { id := "cap", onEnter := "go on", transitions := [], handler := some "accumulate",
    maxTurns := some 0 }

def ztDef : WorkflowDef :=
  { id := "zflow", triggerIntent := "z", states := [("cap", ztState)],
    initialState := "cap", exitPhrases := ["finish"], exitMessage := "done" }

def ztMgr : WorkflowManager :=
  { registry := [("zflow", ztDef)], handlers := WORKFLOW_HANDLERS,
    activeDef := some ztDef, activeStateId := some "cap",
    context := { buffer := "x", metadata := [], turnCount := 5, stateTurnCount := 5 } }

def ctxW : WorkflowContext :=
  { buffer := "a b c", metadata := [("topic", "lean")], turnCount := 4, stateTurnCount := 1 }

/-- C7: for every exit operation, the exit message is resolved against the
pre-exit context (override if provided, else the `exitMessage` of the active
definition), the emitted action carries a snapshot of that pre-exit context,
and the second component of `exitWorkflow` — by construction the manager
state at the moment `emit` runs (the clear on lines 304-306 precedes the
emit on line 308) — already satisfies `isActive = false`,
`getActiveStateId = none` and a fresh zeroed context, so any listener
observing the engine during emission sees IDLE. -/
theorem exitWorkflow_clears_before_emit (d : WorkflowDef) (m : WorkflowManager)
    (ov : Option String) :
    isActive (exitWorkflow d m ov).2 = false ∧
    getActiveStateId (exitWorkflow d m ov).2 = none ∧
    getContext (exitWorkflow d m ov).2 = freshContext ∧
    (exitWorkflow d m ov).1 =
      { consumed := true,
        action := some (WorkflowAction.exitWorkflow
          (resolveTemplate (ov.getD d.exitMessage) m.context) d.id m.context) } := by
  refine ⟨rfl, rfl, rfl, rfl⟩

/-- C6: entering a state id that does not resolve in the states mapping of
the active definition (the path taken by every Target, including
`maxTurnsTarget` and `initialState` on activation) performs an unconditional
exit: `consumed = true`, an `exit-workflow` action carrying the DEFAULT exit
message (even when the Target carried an override), and a cleared instance —
the total function never raises and no failure other than the unexpected
`exit-workflow` action is surfaced. -/
theorem enterState_unresolvable_exits (d : WorkflowDef) (m : WorkflowManager)
    (sid : String) (ov : Option String) (h : d.states.lookup sid = none) :
    enterState d m sid ov =
      ({ consumed := true,
         action := some (WorkflowAction.exitWorkflow
           (resolveTemplate d.exitMessage m.context) d.id m.context) },
       { m with activeDef := none, activeStateId := none, context := freshContext }) := by
  unfold enterState
  rw [h]
  rfl

/-- C5: on every resolvable enter-state operation, `stateTurnCount` is reset
to 0 exactly when the target state id differs from the current active state
id, and is preserved on a self-loop — the comparison is pure id equality,
independent of the override message and of which transition key produced the
target (`enterState` is not told the key). -/
theorem enterState_stateTurnCount_reset_iff (d : WorkflowDef) (m : WorkflowManager)
    (sid : String) (ov : Option String) (st : WorkflowStateDef)
    (hst : d.states.lookup sid = some st) :
    (enterState d m sid ov).2.context =
      (if m.activeStateId = some sid then m.context
       else { m.context with stateTurnCount := 0 }) ∧
    (enterState d m sid ov).2.activeStateId = some sid := by
  unfold enterState
  rw [hst]
  exact ⟨rfl, rfl⟩

/-- C3: while a workflow is active, if the lowercased-and-trimmed input text
contains any of the exit phrases of the active definition as a
case-insensitive substring, `handleInput` exits with the default
`exitMessage` and returns `consumed = true` with an `exit-workflow` action —
for every state, including capture states with a handler — and the context
snapshot in the action shows `turnCount`/`stateTurnCount` NOT incremented for
that input (the whole instance state is then discarded). -/
theorem handleInput_exit_phrase_priority (m : WorkflowManager) (d : WorkflowDef)
    (text intent : String)
    (hact : m.activeDef = some d)
    (hex : matchesExitPhrase (lowerTrim text) d.exitPhrases = true) :
    handleInput m text intent =
      ({ consumed := true,
         action := some (WorkflowAction.exitWorkflow
           (resolveTemplate d.exitMessage m.context) d.id m.context) },
       { m with activeDef := none, activeStateId := none, context := freshContext }) := by
  unfold handleInput
  rw [hact]
  simp only [hex, if_true]
  rfl

/-- C9: `isCapturing` returns true exactly when a workflow is active, the
active state id is a non-empty string resolving in the states mapping of the
active definition, that state declares a (non-empty, per JS truthiness)
handler name, and its transitions mapping is completely empty — not even a
wildcard entry; in every other situation it returns false. -/
theorem isCapturing_characterization (m : WorkflowManager) :
    isCapturing m = true ↔
      ∃ d sid st, m.activeDef = some d ∧ m.activeStateId = some sid ∧ sid ≠ "" ∧
        d.states.lookup sid = some st ∧
        (∃ hname, st.handler = some hname ∧ hname ≠ "") ∧
        st.transitions = [] := by
  unfold isCapturing
  cases had : m.activeDef with
  | none => simp
  | some d =>
    cases hsid : m.activeStateId with
    | none => simp
    | some sid =>
      by_cases hse : sid = ""
      · subst hse
        simp
      · cases hst : d.states.lookup sid with
        | none => simp [hst, hse]
        | some st =>
          cases hh : st.handler with
          | none => simp [hst, hse, hh]
          | some hname =>
            by_cases hne : hname = ""
            · subst hne
              simp [hst, hse, hh]
            · simp [hst, hse, hh, hne, List.isEmpty_iff]

/-- C1 counterexample: with workflow `w` active, calling `register` with a
fresh definition that has the same id `"w"` but `exitMessage = "new"` does NOT
make subsequent engine reads reflect the newly registered definition: the next
exit still resolves the `exitMessage` of the definition captured at activation
(`"old"`), refuting the registry-entry-at-call-time reading of C1. -/
theorem register_active_id_counterexample :
    getActiveWorkflowId (handleInput (register liveDefOld newManager) "go now" "go").2 = some "w" ∧
    liveDefNew.id = "w" ∧ liveDefNew.exitMessage = "new" ∧
    (((handleInput
        (register liveDefNew (handleInput (register liveDefOld newManager) "go now" "go").2)
        "please stop" "unknown").1).action =
      some (WorkflowAction.exitWorkflow "old" "w" freshContext)) ∧
    (((handleInput
        (register liveDefNew (handleInput (register liveDefOld newManager) "go now" "go").2)
        "please stop" "unknown").1).action ≠
      some (WorkflowAction.exitWorkflow "new" "w" freshContext)) := by decide

/-- C1 (amended): `register` only inserts/overwrites the registry entry for
`d.id`; the running instance is untouched — the definition pointer captured at
activation, the active state id, and the context (`turnCount`, `buffer`, …)
are all preserved unchanged, so subsequent engine reads keep reflecting the
definition captured at activation, not the registry entry at call time. -/
theorem register_preserves_running_instance (d : WorkflowDef) (m : WorkflowManager) :
    (register d m).activeDef = m.activeDef ∧
    (register d m).activeStateId = m.activeStateId ∧
    (register d m).context = m.context ∧
    (register d m).handlers = m.handlers ∧
    (register d m).registry = mapSet d.id d m.registry :=
  ⟨rfl, rfl, rfl, rfl, rfl⟩

theorem loadLines_failure_decomp (parse : String → Option WorkflowDef) :
    ∀ (lines : List String) (m : WorkflowManager), (loadLines parse lines m).1 = false →
      ∃ pre bad suf, lines = pre ++ bad :: suf ∧
        (∀ l ∈ pre, (parse l).isSome = true) ∧
        parse bad = none ∧
        (loadLines parse lines m).2 = registerParsed parse pre m := by
  intro lines
  induction lines with
  | nil => intro m h; simp [loadLines] at h
  | cons l rest ih =>
    intro m h
    cases hp : parse l with
    | none =>
      exact ⟨[], l, rest, rfl, by simp, hp, by simp [loadLines, hp, registerParsed]⟩
    | some d =>
      have h' : (loadLines parse rest (register d m)).1 = false := by
        simpa [loadLines, hp] using h
      obtain ⟨pre, bad, suf, heq, hpre, hbad, hres⟩ := ih (register d m) h'
      refine ⟨l :: pre, bad, suf, by simp [heq], ?_, hbad, ?_⟩
      · intro x hx
        rcases List.mem_cons.mp hx with hx | hx
        · subst hx; simp [hp]
        · exact hpre x hx
      · simp only [loadLines, hp, registerParsed]
        exact hres

/-- C2 (amended): when `loadFromJSONL` fails, the non-blank lines split as a
parseable prefix, the first failing line, and an unprocessed remainder; the
failure is surfaced to the caller (`false`) and exactly the definitions of the
prefix lines have been registered — prefix application, not all-or-nothing.
Blank lines are skipped. -/
theorem loadFromJSONL_registers_prefix_on_failure (parse : String → Option WorkflowDef)
    (jsonl : String) (m : WorkflowManager)
    (h : (loadFromJSONL parse jsonl m).1 = false) :
    ∃ pre bad suf, nonBlankLines jsonl = pre ++ bad :: suf ∧
      (∀ l ∈ pre, (parse l).isSome = true) ∧
      parse bad = none ∧
      (loadFromJSONL parse jsonl m).2 = registerParsed parse pre m :=
  loadLines_failure_decomp parse (nonBlankLines jsonl) m h

/-- C2 counterexample: a two-line batch (with a blank line, which is skipped)
whose second non-blank line fails to parse leaves the registry CHANGED: the
definition parsed from the first line is registered even though the batch
failed, refuting the all-or-nothing part of C2.  `cexParse` stands for
`JSON.parse`, accepting exactly the first line. -/
theorem loadFromJSONL_partial_batch_counterexample :
    (loadFromJSONL cexParse "valid-def-line\n\nnot json" newManager).1 = false ∧
    (loadFromJSONL cexParse "valid-def-line\n\nnot json" newManager).2.registry ≠
      newManager.registry ∧
    (loadFromJSONL cexParse "valid-def-line\n\nnot json" newManager).2.registry =
      [("alpha", cexDef)] := by decide

/-- C2 witness: the amended theorem applied to a concrete failing batch. -/
theorem loadFromJSONL_registers_prefix_on_failure_witness :
    ∃ pre bad suf,
      nonBlankLines "valid-def-line\n\nnot json" = pre ++ bad :: suf ∧
      (∀ l ∈ pre, (cexParse l).isSome = true) ∧
      cexParse bad = none ∧
      (loadFromJSONL cexParse "valid-def-line\n\nnot json" newManager).2 =
        registerParsed cexParse pre newManager :=
  loadFromJSONL_registers_prefix_on_failure cexParse "valid-def-line\n\nnot json" newManager
    (by decide)

@[simp] theorem eraseMaxTurns_onEnter (st : WorkflowStateDef) :
    (eraseMaxTurns st).onEnter = st.onEnter := rfl

@[simp] theorem eraseMaxTurns_transitions (st : WorkflowStateDef) :
    (eraseMaxTurns st).transitions = st.transitions := rfl

@[simp] theorem eraseMaxTurns_handler (st : WorkflowStateDef) :
    (eraseMaxTurns st).handler = st.handler := rfl

@[simp] theorem eraseMaxTurns_id (st : WorkflowStateDef) :
    (eraseMaxTurns st).id = st.id := rfl

@[simp] theorem eraseMaxTurns_maxTurnsTarget (st : WorkflowStateDef) :
    (eraseMaxTurns st).maxTurnsTarget = st.maxTurnsTarget := rfl

@[simp] theorem eraseMaxTurns_maxTurns (st : WorkflowStateDef) :
    (eraseMaxTurns st).maxTurns = none := rfl

@[simp] theorem eraseStateMax_exitPhrases (sid : String) (d : WorkflowDef) :
    (eraseStateMax sid d).exitPhrases = d.exitPhrases := rfl

@[simp] theorem eraseStateMax_exitMessage (sid : String) (d : WorkflowDef) :
    (eraseStateMax sid d).exitMessage = d.exitMessage := rfl

@[simp] theorem eraseStateMax_wid (sid : String) (d : WorkflowDef) :
    (eraseStateMax sid d).id = d.id := rfl

@[simp] theorem eraseMT_activeStateId (sid : String) (m : WorkflowManager) :
    (eraseMT sid m).activeStateId = m.activeStateId := rfl

@[simp] theorem eraseMT_context (sid : String) (m : WorkflowManager) :
    (eraseMT sid m).context = m.context := rfl

@[simp] theorem eraseMT_handlers (sid : String) (m : WorkflowManager) :
    (eraseMT sid m).handlers = m.handlers := rfl

theorem incTurns_eraseMT (sid : String) (m : WorkflowManager) :
    incTurns (eraseMT sid m) = eraseMT sid (incTurns m) := rfl

theorem lookup_cons_self {β : Type} (k : String) (v : β) (t : List (String × β)) :
    List.lookup k ((k, v) :: t) = some v := by
  simp [List.lookup]

theorem lookup_cons_ne {β : Type} (a k : String) (v : β) (t : List (String × β))
    (h : (a == k) = false) :
    List.lookup a ((k, v) :: t) = List.lookup a t := by
  simp [List.lookup, h]

theorem lookup_map_erase (sid tid : String) (l : List (String × WorkflowStateDef)) :
    (l.map (fun p => if p.1 == sid then (p.1, eraseMaxTurns p.2) else p)).lookup tid =
      (l.lookup tid).map (fun st => if tid == sid then eraseMaxTurns st else st) := by
  induction l with
  | nil => rfl
  | cons p rest ih =>
    obtain ⟨k, v⟩ := p
    simp only [List.map_cons]
    cases hks : (k == sid) with
    | true =>
      rw [if_pos rfl]
      cases htk : (tid == k) with
      | true =>
        have h1 : tid = k := eq_of_beq htk
        subst h1
        rw [lookup_cons_self, lookup_cons_self, Option.map_some']
        rw [if_pos hks]
      | false =>
        rw [lookup_cons_ne _ _ _ _ htk, lookup_cons_ne _ _ _ _ htk]
        exact ih
    | false =>
      rw [if_neg Bool.false_ne_true]
      cases htk : (tid == k) with
      | true =>
        have h1 : tid = k := eq_of_beq htk
        subst h1
        rw [lookup_cons_self, lookup_cons_self, Option.map_some']
        rw [if_neg (show ¬((tid == sid) = true) by rw [hks]; exact Bool.false_ne_true)]
      | false =>
        rw [lookup_cons_ne _ _ _ _ htk, lookup_cons_ne _ _ _ _ htk]
        exact ih

theorem exitWorkflow_erase (sid : String) (d : WorkflowDef) (m : WorkflowManager)
    (ov : Option String) :
    exitWorkflow (eraseStateMax sid d) (eraseMT sid m) ov =
      ((exitWorkflow d m ov).1, eraseMT sid (exitWorkflow d m ov).2) := rfl

theorem enterState_erase (sid : String) (d : WorkflowDef) (m : WorkflowManager)
    (tid : String) (ov : Option String) :
    enterState (eraseStateMax sid d) (eraseMT sid m) tid ov =
      ((enterState d m tid ov).1, eraseMT sid (enterState d m tid ov).2) := by
  unfold enterState
  rw [show (eraseStateMax sid d).states =
        d.states.map (fun p => if p.1 == sid then (p.1, eraseMaxTurns p.2) else p) from rfl,
      lookup_map_erase]
  cases hst : d.states.lookup tid with
  | none => exact exitWorkflow_erase sid d m none
  | some st =>
    simp only [Option.map_some']
    cases h : (tid == sid) with
    | true => rfl
    | false => rfl

theorem resolveTarget_erase (sid : String) (d : WorkflowDef) (m : WorkflowManager)
    (target : String) :
    resolveTarget (eraseStateMax sid d) (eraseMT sid m) target =
      ((resolveTarget d m target).1, eraseMT sid (resolveTarget d m target).2) := by
  unfold resolveTarget
  by_cases hx : (target == "exit" || startsWith target "exit:") = true
  · simp only [hx, if_true]
    exact exitWorkflow_erase sid d m _
  · simp only [eq_false_of_ne_true hx, if_false]
    cases hidx : idxOfColon target.data with
    | none => exact enterState_erase sid d m target none
    | some i => exact enterState_erase sid d m _ _

theorem handleInput_step (m : WorkflowManager) (d : WorkflowDef) (sid : String)
    (st : WorkflowStateDef) (text intent : String)
    (hact : m.activeDef = some d) (hsid : m.activeStateId = some sid)
    (hst : d.states.lookup sid = some st)
    (hex : matchesExitPhrase (lowerTrim text) d.exitPhrases = false) :
    handleInput m text intent =
      (if maxTurnsHit st.maxTurns (m.context.stateTurnCount + 1) then
        resolveTarget d (incTurns m) (st.maxTurnsTarget.getD "exit")
      else
        match (match st.transitions.lookup intent with
               | some t => some t
               | none => st.transitions.lookup "*") with
        | some target => resolveTarget d (incTurns m) target
        | none =>
          match st.handler with
          | some hname =>
            if hname == "" then ({ consumed := false }, incTurns m)
            else
              match m.handlers.lookup hname with
              | some handlerFn =>
                ({ consumed := true,
                   action := some (WorkflowAction.inputCaptured st.id d.id) },
                 { incTurns m with context := handlerFn text (incTurns m).context })
              | none => ({ consumed := false }, incTurns m)
          | none => ({ consumed := false }, incTurns m)) := by
  unfold handleInput
  rw [hact]
  simp only [hex, Bool.false_eq_true, if_false, hsid, hst]
  rfl

theorem handleInput_erase (m : WorkflowManager) (d : WorkflowDef) (sid : String)
    (st : WorkflowStateDef) (text intent : String)
    (hact : m.activeDef = some d) (hsid : m.activeStateId = some sid)
    (hst : d.states.lookup sid = some st)
    (hmt : maxTurnsHit st.maxTurns (m.context.stateTurnCount + 1) = false) :
    handleInput (eraseMT sid m) text intent =
      ((handleInput m text intent).1, eraseMT sid (handleInput m text intent).2) := by
  have hact' : (eraseMT sid m).activeDef = some (eraseStateMax sid d) := by
    rw [show (eraseMT sid m).activeDef = m.activeDef.map (eraseStateMax sid) from rfl, hact,
      Option.map_some']
  have hst' : (eraseStateMax sid d).states.lookup sid = some (eraseMaxTurns st) := by
    rw [show (eraseStateMax sid d).states =
          d.states.map (fun p => if p.1 == sid then (p.1, eraseMaxTurns p.2) else p) from rfl,
      lookup_map_erase, hst, Option.map_some', if_pos (beq_self_eq_true sid)]
  cases hex : matchesExitPhrase (lowerTrim text) d.exitPhrases with
  | true =>
    unfold handleInput
    rw [hact, hact']
    have hex' : matchesExitPhrase (lowerTrim text) (eraseStateMax sid d).exitPhrases = true := by
      rw [eraseStateMax_exitPhrases]; exact hex
    simp only [hex, hex', if_true]
    rfl
  | false =>
    have hex' : matchesExitPhrase (lowerTrim text) (eraseStateMax sid d).exitPhrases = false := by
      rw [eraseStateMax_exitPhrases]; exact hex
    rw [handleInput_step (eraseMT sid m) (eraseStateMax sid d) sid (eraseMaxTurns st) text intent
        hact' (by rw [eraseMT_activeStateId]; exact hsid) hst' hex',
      handleInput_step m d sid st text intent hact hsid hst hex]
    simp only [eraseMaxTurns_maxTurns, eraseMaxTurns_transitions, eraseMaxTurns_handler,
      eraseMaxTurns_maxTurnsTarget, eraseMaxTurns_id, eraseMT_context, eraseMT_handlers,
      incTurns_eraseMT, hmt, Bool.false_eq_true, if_false]
    have hmh : maxTurnsHit none (m.context.stateTurnCount + 1) = false := rfl
    rw [hmh]
    simp only [Bool.false_eq_true, if_false]
    cases hT : (match st.transitions.lookup intent with
                | some t => some t
                | none => st.transitions.lookup "*") with
    | some target => exact resolveTarget_erase sid d (incTurns m) target
    | none =>
      cases hh : st.handler with
      | none => rfl
      | some hname =>
        cases hne : (hname == "") with
        | true => simp only [hne, if_true]
        | false =>
          simp only [hne, Bool.false_eq_true, if_false]
          cases hf : m.handlers.lookup hname with
          | some f => rfl
          | none => rfl

/-- C10: a state declaring `maxTurns = 0` never fires the redirect: because
the guard requires a truthy (non-zero) `maxTurns` before comparing, every
input in that state is processed exactly as if `maxTurns` were absent — the
`HandleResult` is identical and the successor manager is equal up to erasing
the declared cap. -/
theorem handleInput_maxTurns_zero_inert (m : WorkflowManager) (d : WorkflowDef) (sid : String)
    (st : WorkflowStateDef) (text intent : String)
    (hact : m.activeDef = some d) (hsid : m.activeStateId = some sid)
    (hst : d.states.lookup sid = some st)
    (h0 : st.maxTurns = some 0) :
    handleInput (eraseMT sid m) text intent =
      ((handleInput m text intent).1, eraseMT sid (handleInput m text intent).2) :=
  handleInput_erase m d sid st text intent hact hsid hst (by rw [h0]; rfl)

/-- C4: for a state with `maxTurns = N`, `N ≥ 1`, the check runs after the
increment with strict inequality.  (i) While `stateTurnCount + 1 ≤ N` (the
first `N` inputs in the state), the input is processed exactly as if the state
declared no `maxTurns` (same result, successor manager equal up to erasing the
cap).  (ii) On the `(N+1)`-th input, `handleInput` resolves
`maxTurnsTarget ?? "exit"` as a Target — a right-hand side that does not
mention `detectedIntent`, so the redirect fires regardless of intent and the
normal transition and handler steps are skipped.  (iii) With no
`maxTurnsTarget`, that resolution is an unconditional exit with no override
message. -/
theorem handleInput_maxTurns_boundary (m : WorkflowManager) (d : WorkflowDef) (sid : String)
    (st : WorkflowStateDef) (text intent : String) (N : Nat)
    (hact : m.activeDef = some d) (hsid : m.activeStateId = some sid)
    (hst : d.states.lookup sid = some st)
    (hN : st.maxTurns = some N) (hN1 : 1 ≤ N)
    (hex : matchesExitPhrase (lowerTrim text) d.exitPhrases = false) :
    (m.context.stateTurnCount + 1 ≤ N →
      handleInput (eraseMT sid m) text intent =
        ((handleInput m text intent).1, eraseMT sid (handleInput m text intent).2)) ∧
    (N < m.context.stateTurnCount + 1 →
      handleInput m text intent = resolveTarget d (incTurns m) (st.maxTurnsTarget.getD "exit")) ∧
    (N < m.context.stateTurnCount + 1 → st.maxTurnsTarget = none →
      handleInput m text intent = exitWorkflow d (incTurns m) none) := by
  refine ⟨?_, ?_, ?_⟩
  · intro hle
    refine handleInput_erase m d sid st text intent hact hsid hst ?_
    rw [hN]
    simp [maxTurnsHit, Nat.not_lt.mpr hle]
  · intro hgt
    rw [handleInput_step m d sid st text intent hact hsid hst hex]
    rw [if_pos (show maxTurnsHit st.maxTurns (m.context.stateTurnCount + 1) = true by
      rw [hN]; simp [maxTurnsHit, hgt, Nat.one_le_iff_ne_zero.mp hN1])]
  · intro hgt htgt
    rw [handleInput_step m d sid st text intent hact hsid hst hex]
    rw [if_pos (show maxTurnsHit st.maxTurns (m.context.stateTurnCount + 1) = true by
      rw [hN]; simp [maxTurnsHit, hgt, Nat.one_le_iff_ne_zero.mp hN1])]
    rw [htgt]
    rfl

theorem span_word (w r : List Char) (hw : w.all isWordChar = true) (hr : headNotWord r = true) :
    (w ++ r).takeWhile isWordChar = w ∧ (w ++ r).dropWhile isWordChar = r := by
  induction w with
  | nil =>
    cases r with
    | nil => exact ⟨rfl, rfl⟩
    | cons c t =>
      have hc : isWordChar c = false := by
        simpa [headNotWord] using hr
      simp [List.takeWhile, List.dropWhile, hc]
  | cons a w' ih =>
    rw [List.all_cons, Bool.and_eq_true] at hw
    have := ih hw.2
    simp [List.takeWhile, List.dropWhile, hw.1, this.1, this.2]

theorem headNotWord_dotted (segs : List (List Char)) (s : List Char) :
    headNotWord (dotted segs ++ '}' :: '}' :: s) = true := by
  cases segs <;> rfl

theorem length_le_dotted (segs : List (List Char)) : segs.length ≤ (dotted segs).length := by
  induction segs with
  | nil => exact Nat.le_refl 0
  | cons w rest ih =>
    simp only [dotted, List.length_cons, List.length_append]
    omega

theorem matchTail_dotted (segs : List (List Char)) (s : List Char) :
    ∀ fuel : Nat, (∀ u ∈ segs, u ≠ [] ∧ u.all isWordChar = true) →
      segs.length ≤ fuel →
      matchTail fuel (dotted segs ++ '}' :: '}' :: s) = some (dotted segs, s) := by
  induction segs with
  | nil =>
    intro fuel _ _
    cases fuel <;> rfl
  | cons w rest ih =>
    intro fuel hsegs hfuel
    obtain ⟨hw1, hw2⟩ := hsegs w (by simp)
    have hrest : ∀ u ∈ rest, u ≠ [] ∧ u.all isWordChar = true := fun u hu =>
      hsegs u (by simp [hu])
    cases fuel with
    | zero => exact absurd hfuel (by simp)
    | succ f =>
      have hle : rest.length ≤ f := by
        simpa using Nat.succ_le_succ_iff.mp hfuel
      have hspan := span_word w (dotted rest ++ '}' :: '}' :: s) hw2
        (headNotWord_dotted rest s)
      have hne : ((w ++ (dotted rest ++ '}' :: '}' :: s)).takeWhile isWordChar).isEmpty = false := by
        rw [hspan.1]
        cases w with
        | nil => exact absurd rfl hw1
        | cons a t => rfl
      show matchTail (f + 1) ('.' :: (w ++ dotted rest) ++ '}' :: '}' :: s) = _
      rw [show ('.' :: (w ++ dotted rest) ++ '}' :: '}' :: s) =
            '.' :: (w ++ (dotted rest ++ '}' :: '}' :: s)) by simp]
      simp only [matchTail, hspan.1, hspan.2, hne, Bool.false_eq_true, if_false,
        ih f hrest hle]
      simp [dotted, hw1]

theorem matchBody_path (w : List Char) (segs : List (List Char)) (s : List Char) (fuel : Nat)
    (hw1 : w ≠ []) (hw2 : w.all isWordChar = true)
    (hsegs : ∀ u ∈ segs, u ≠ [] ∧ u.all isWordChar = true)
    (hfuel : segs.length ≤ fuel) :
    matchBody fuel (pathChars (w :: segs) ++ '}' :: '}' :: s) =
      some (String.mk (pathChars (w :: segs)), s) := by
  have hspan := span_word w (dotted segs ++ '}' :: '}' :: s) hw2 (headNotWord_dotted segs s)
  have hne : ((w ++ (dotted segs ++ '}' :: '}' :: s)).takeWhile isWordChar).isEmpty = false := by
    rw [hspan.1]
    cases w with
    | nil => exact absurd rfl hw1
    | cons a t => rfl
  show matchBody fuel (w ++ dotted segs ++ '}' :: '}' :: s) = _
  rw [show (w ++ dotted segs ++ '}' :: '}' :: s) = w ++ (dotted segs ++ '}' :: '}' :: s) by simp]
  simp only [matchBody, hspan.1, hspan.2, hne, Bool.false_eq_true, if_false,
    matchTail_dotted segs s fuel hsegs hfuel]
  simp [pathChars, hw1]

theorem strAppend_data (a b : String) : (a ++ b).data = a.data ++ b.data := rfl

theorem stringMk_data (s : String) : String.mk s.data = s := rfl

theorem renderAux_var (ctx : WorkflowContext) (w : List Char) (segs : List (List Char))
    (fuel : Nat) (hw1 : w ≠ []) (hw2 : w.all isWordChar = true)
    (hsegs : ∀ u ∈ segs, u ≠ [] ∧ u.all isWordChar = true) :
    renderAux ctx (fuel + 1) ('{' :: '{' :: (pathChars (w :: segs) ++ ['}', '}'])) =
      (resolveVar ctx (String.mk (pathChars (w :: segs)))).data := by
  have hlen : segs.length ≤ (pathChars (w :: segs) ++ ['}', '}']).length := by
    have h1 := length_le_dotted segs
    simp only [pathChars, List.length_append]
    omega
  have hmb : matchBody ((pathChars (w :: segs) ++ ['}', '}']).length)
      (pathChars (w :: segs) ++ ['}', '}']) =
      some (String.mk (pathChars (w :: segs)), []) := by
    have := matchBody_path w segs [] ((pathChars (w :: segs) ++ ['}', '}']).length)
      hw1 hw2 hsegs hlen
    simpa using this
  simp only [renderAux, hmb]
  simp

/-- C8: for every context and every well-formed variable path `v` (non-empty
word-character segments separated by dots — the only paths the template
pattern can capture), resolving the template consisting of `v` in double
braces substitutes: `buffer` with the buffer, `turnCount`/`stateTurnCount`
with their decimal representations, `wordCount` with the number of
whitespace-delimited tokens of the trimmed buffer (`"0"` when empty or
whitespace-only), `metadata.<key>` with the value at that metadata key or
`""` when absent, and every other variable name with the empty string.
`resolveTemplate` is a total function, so no error can be raised. -/
theorem resolveTemplate_substitution (ctx : WorkflowContext) (v : String)
    (w : List Char) (segs : List (List Char))
    (hv : v.data = pathChars (w :: segs))
    (hw1 : w ≠ []) (hw2 : w.all isWordChar = true)
    (hsegs : ∀ u ∈ segs, u ≠ [] ∧ u.all isWordChar = true) :
    resolveTemplate ("\x7b\x7b" ++ v ++ "\x7d\x7d") ctx =
      (if v == "buffer" then ctx.buffer
       else if v == "turnCount" then toString ctx.turnCount
       else if v == "stateTurnCount" then toString ctx.stateTurnCount
       else if v == "wordCount" then
         (let trimmed := trimChars ctx.buffer.data
          if trimmed.isEmpty then "0"
          else toString (((splitPred Char.isWhitespace trimmed).filter
            (fun s => !s.isEmpty)).length))
       else if startsWith v "metadata." then
         (match ctx.metadata.lookup (sliceFrom v 9) with
          | some val => val
          | none => "")
       else "") := by
  have hdata : ("\x7b\x7b" ++ v ++ "\x7d\x7d").data =
      '{' :: '{' :: (pathChars (w :: segs) ++ ['}', '}']) := by
    rw [strAppend_data, strAppend_data, hv]
    rfl
  unfold resolveTemplate
  rw [hdata]
  rw [show ('{' :: '{' :: (pathChars (w :: segs) ++ ['}', '}'])).length =
        (pathChars (w :: segs) ++ ['}', '}']).length + 1 + 1 from rfl]
  rw [renderAux_var ctx w segs _ hw1 hw2 hsegs]
  rw [← hv, stringMk_data, stringMk_data]
  rfl

/-- C3 witness: a capture state with an `accumulate` handler still exits on
an input containing the exit phrase (uppercased, with surrounding words). -/
theorem handleInput_exit_phrase_priority_witness :
    handleInput exMgr "Please STOP TRANSCRIBE now" "unknown" =
      ({ consumed := true,
         action := some (WorkflowAction.exitWorkflow
           (resolveTemplate exDef.exitMessage exMgr.context) exDef.id exMgr.context) },
       { exMgr with activeDef := none, activeStateId := none, context := freshContext }) :=
  handleInput_exit_phrase_priority exMgr exDef "Please STOP TRANSCRIBE now" "unknown" rfl
    (by decide)

/-- C4 witness: `maxTurns = 2` with `stateTurnCount = 2`: the third input in
the state force-redirects (here to the default exit). -/
theorem handleInput_maxTurns_boundary_witness :
    (mtMgr.context.stateTurnCount + 1 ≤ 2 →
      handleInput (eraseMT "ask" mtMgr) "carrot" "unknown" =
        ((handleInput mtMgr "carrot" "unknown").1,
         eraseMT "ask" (handleInput mtMgr "carrot" "unknown").2)) ∧
    (2 < mtMgr.context.stateTurnCount + 1 →
      handleInput mtMgr "carrot" "unknown" =
        resolveTarget mtDef (incTurns mtMgr) (mtState.maxTurnsTarget.getD "exit")) ∧
    (2 < mtMgr.context.stateTurnCount + 1 → mtState.maxTurnsTarget = none →
      handleInput mtMgr "carrot" "unknown" = exitWorkflow mtDef (incTurns mtMgr) none) :=
  handleInput_maxTurns_boundary mtMgr mtDef "ask" mtState "carrot" "unknown" 2 rfl rfl
    (by decide) rfl (by decide) (by decide)

/-- C5 witness: a self-loop back into the active state `"ask"` keeps the
counter (the if-condition resolves to the self-loop branch). -/
theorem enterState_stateTurnCount_reset_iff_witness :
    (enterState mtDef mtMgr "ask" none).2.context =
      (if mtMgr.activeStateId = some "ask" then mtMgr.context
       else { mtMgr.context with stateTurnCount := 0 }) ∧
    (enterState mtDef mtMgr "ask" none).2.activeStateId = some "ask" :=
  enterState_stateTurnCount_reset_iff mtDef mtMgr "ask" none mtState (by decide)

/-- C6 witness: a transition Target naming the absent state `"ghost"` (with
an override message) exits with the default message. -/
theorem enterState_unresolvable_exits_witness :
    enterState mtDef mtMgr "ghost" (some "override") =
      ({ consumed := true,
         action := some (WorkflowAction.exitWorkflow
           (resolveTemplate mtDef.exitMessage mtMgr.context) mtDef.id mtMgr.context) },
       { mtMgr with activeDef := none, activeStateId := none, context := freshContext }) :=
  enterState_unresolvable_exits mtDef mtMgr "ghost" (some "override") (by decide)

/-- C10 witness: `maxTurns = 0` with `stateTurnCount = 5`: the input is
still captured by the handler exactly as without the cap. -/
theorem handleInput_maxTurns_zero_inert_witness :
    handleInput (eraseMT "cap" ztMgr) "hello" "unknown" =
      ((handleInput ztMgr "hello" "unknown").1,
       eraseMT "cap" (handleInput ztMgr "hello" "unknown").2) :=
  handleInput_maxTurns_zero_inert ztMgr ztDef "cap" ztState "hello" "unknown" rfl rfl
    (by decide) rfl

/-- C8 witness: the substitution theorem at the concrete path
`metadata.topic` (which resolves through the metadata branch). -/
theorem resolveTemplate_substitution_witness :
    resolveTemplate ("\x7b\x7b" ++ "metadata.topic" ++ "\x7d\x7d") ctxW =
      (if "metadata.topic" == "buffer" then ctxW.buffer
       else if "metadata.topic" == "turnCount" then toString ctxW.turnCount
       else if "metadata.topic" == "stateTurnCount" then toString ctxW.stateTurnCount
       else if "metadata.topic" == "wordCount" then
         (let trimmed := trimChars ctxW.buffer.data
          if trimmed.isEmpty then "0"
          else toString (((splitPred Char.isWhitespace trimmed).filter
            (fun s => !s.isEmpty)).length))
       else if startsWith "metadata.topic" "metadata." then
         (match ctxW.metadata.lookup (sliceFrom "metadata.topic" 9) with
          | some val => val
          | none => "")
       else "") :=
  resolveTemplate_substitution ctxW "metadata.topic"
    ['m', 'e', 't', 'a', 'd', 'a', 't', 'a'] [['t', 'o', 'p', 'i', 'c']]
    (by decide) (by decide) (by decide) (by decide)

end SpeakerWorkflow
